import Mathlib

/-! x25tap: a shallow embedding of `src/x25tap.c`

The driver is a set of callbacks the kernel invokes.  Each callback is
embedded as a total function from its inputs (the frame, the device, the
module globals, and the answers of the kernel routines it calls) to its
return value, the updated driver state and the ordered list of kernel
routines it called (`Event`).  Kernel routines are outside the repository:
their answers (does `skb_clone` succeed, what does `register_netdev`
return, ...) are parameters.

Machine arithmetic: the statistics counters are `unsigned long` and wrap
modulo `2 ^ BITS_PER_LONG`; `skb->len` is `unsigned int`; `unit`, `len`,
`max_taps` and `i` follow the C conversions of the lines they come from.
-/

namespace X25tap

/-! ## Constants of the kernel headers the driver is built against -/

/-- Line 52 of the source. -/
def NETLINK_TAPBASE : Nat := 17

def ENOMEM : Int := 12
def E2BIG : Int := 7
def EINVAL : Int := 22
def EPERM : Int := 1
def ENOBUFS : Int := 105

def IFF_NOARP : Nat := 0x80
def ARPHRD_X25 : Nat := 271
def ETH_P_X25 : Nat := 0x0805
def PACKET_HOST : Nat := 0

/-- Width of `long`: the two data models Linux runs on. -/
inductive Arch
  | ilp32
  | lp64
deriving DecidableEq, Repr

def BITS_PER_LONG : Arch → Nat
  | Arch.ilp32 => 32
  | Arch.lp64 => 64

/-- Conversion of a C integer value to `unsigned long`. -/
def ulong (a : Arch) (x : Int) : Nat := (x % (2 : Int) ^ BITS_PER_LONG a).toNat

/-- Conversion of a C integer value to `unsigned int`. -/
def u32 (x : Int) : Nat := (x % (2 : Int) ^ 32).toNat

/-- Conversion of an `unsigned int` value to `int`. -/
def int_of_u32 (x : Nat) : Int :=
  if x % 2 ^ 32 < 2 ^ 31 then ((x % 2 ^ 32 : Nat) : Int) else ((x % 2 ^ 32 : Nat) : Int) - (2 : Int) ^ 32

/-! ## Data model -/

/-- Interface name, `sprintf(dev->name, "x25tap%d", unit)`.  It also stands for
the identity (the pointer) of the `net_device` in the recorded kernel calls. -/
inductive ifname
  | x25tap (unit : Nat)
deriving DecidableEq, Repr

/-- The counters of `struct net_device_stats` (all `unsigned long`). -/
structure net_device_stats where
  rx_packets : Nat
  tx_packets : Nat
  rx_bytes : Nat
  tx_bytes : Nat
  rx_errors : Nat
  tx_errors : Nat
  rx_dropped : Nat
  tx_dropped : Nat
deriving DecidableEq, Repr

/-- The driver's private part of a device, `struct net_local`: `nl` is the
netlink socket, named by the netlink unit it was created for (`none` is NULL). -/
structure net_local where
  nl : Option Nat
  stats : net_device_stats
deriving DecidableEq, Repr

/-- The fields of `struct net_device` the driver reads or writes, with its
private area `priv`. -/
structure net_device where
  name : ifname
  base_addr : Nat
  mem_start : Nat
  dev_addr : List Nat
  flags : Nat
  mtu : Nat
  hard_header_len : Nat
  addr_len : Nat
  type : Nat
  tx_queue_len : Nat
  last_rx : Nat
  queue_running : Bool
  priv : net_local
deriving DecidableEq, Repr

/-- The credentials a netlink message carries in `skb->cb`. -/
structure ucred where
  pid : Nat
  uid : Nat
  gid : Nat
deriving DecidableEq, Repr

/-- A frame buffer, `struct sk_buff`.  `data` are the `len` bytes of the frame
and `len_lt` records that a frame length fits the `int` the kernel keeps
lengths in.  `stale` is the byte the buffer memory holds at `skb->data` when
the frame is empty: it is outside the frame, and it is what the C expression
`skb->data[0]` yields for a frame of length 0.  `users` is the reference
count, `sk` the owning socket, `creds` is `NETLINK_CREDS(skb)`. -/
structure sk_buff where
  data : List Nat
  len_lt : data.length < 2 ^ 31
  stale : Nat
  users : Nat
  sk : Option Nat
  creds : ucred
  dev : Option ifname
  protocol : Nat
  mac_raw : Option Nat
  pkt_type : Nat
deriving DecidableEq, Repr

/-- Field `skb->len` (an `unsigned int`). -/
def sk_buff.len (skb : sk_buff) : Nat := skb.data.length

/-- The C expression `skb->data[0]`. -/
def sk_buff.data0 (skb : sk_buff) : Nat :=
  match skb.data with
  | b :: _ => b
  | [] => skb.stale

/-- Kernel `skb_shared`: `atomic_read(&skb->users) != 1`. -/
def skb_shared (skb : sk_buff) : Bool := decide (skb.users ≠ 1)

/-- What a successful kernel `skb_clone` returns: a buffer head of its own
(one reference, no owning socket) over the same bytes. -/
def skb_clone (skb : sk_buff) : sk_buff := { skb with users := 1, sk := none }

/-- Kernel `skb_orphan`: detach the buffer from its owning socket. -/
def skb_orphan (skb : sk_buff) : sk_buff := { skb with sk := none }

inductive KernLevel
  | KERN_CRIT
  | KERN_INFO
  | KERN_DEBUG
deriving DecidableEq, Repr

/-- The log lines of the driver, with their arguments. -/
inductive Msg
  | doing_open (dev : ifname)
  | connection_request
  | disconnect_request
  | options_not_supported
  | unknown_firstbyte
  | rx_len (dev : ifname) (len : Int)
  | user (dev : ifname) (uid : Nat)
  | bad_unit (unit : Nat)
  | rx (dev : ifname) (len : Int)
  | shutting_down (dev : ifname)
deriving DecidableEq, Repr

/-- A call of a kernel routine (or a store into `tap_map`), as made by the
driver.  A device argument is the pointer passed, `none` being NULL. -/
inductive Event
  | printk (level : KernLevel) (msg : Msg)
  | skb_clone (skb : sk_buff) (ok : Bool)
  | kfree_skb (skb : sk_buff)
  | skb_orphan (skb : sk_buff)
  | netlink_broadcast (nl : Option Nat) (skb : sk_buff) (pid : Nat) (group : Nat)
  | netif_rx (skb : sk_buff)
  | kmalloc_tap_map (slots : Int) (ok : Bool)
  | kfree_tap_map
  | alloc_etherdev (ok : Bool)
  | netdev_boot_setup_check (dev : ifname)
  | register_netdev (dev : ifname) (ret : Int)
  | unregister_netdev (dev : Option ifname)
  | free_netdev (dev : Option ifname)
  | tap_map_store (unit : Nat) (dev : Option ifname)
  | netlink_kernel_create (unit : Nat) (ok : Bool)
  | netif_start_queue (dev : ifname)
  | netif_stop_queue (dev : ifname)
  | sock_release (nl : Nat)
deriving DecidableEq, Repr

def Event.is_netlink_broadcast : Event → Bool
  | Event.netlink_broadcast _ _ _ _ => true
  | _ => false

def Event.is_netif_rx : Event → Bool
  | Event.netif_rx _ => true
  | _ => false

def Event.is_skb_clone : Event → Bool
  | Event.skb_clone _ _ => true
  | _ => false

/-- Result of a per-frame callback: return value, the device afterwards, and
the kernel calls made, in order. -/
structure Ret where
  ret : Int
  dev : net_device
  events : List Event
deriving DecidableEq, Repr

/-- Replace the statistics block of a device (`lp->stats`). -/
def net_device.set_stats (dev : net_device) (s : net_device_stats) : net_device :=
  { dev with priv := { dev.priv with stats := s } }

/-! ## `x25tap_start_xmit` (lines 155-202) -/

/-- Lines 170-201: the switch on `skb->data[0]` and the broadcast, run on the
buffer the callback owns at that point. -/
def x25tap_start_xmit_switch (a : Arch) (x25tap_debug : Int)
    (skb : sk_buff) (dev : net_device) : Ret :=
  let lp := dev.priv
  let b := skb.data0
  if b = 0x00 then
    { ret := 0
      dev := dev.set_stats
        { lp.stats with
          tx_bytes := ulong a (lp.stats.tx_bytes + u32 ((skb.len : Int) - 1))
          tx_packets := ulong a (lp.stats.tx_packets + 1) }
      events := [Event.netlink_broadcast lp.nl skb 0 1] }
  else if b = 0x01 then
    { ret := 0
      dev := dev
      events :=
        (if x25tap_debug > 1 then [Event.printk KernLevel.KERN_DEBUG Msg.connection_request] else [])
        ++ [Event.netlink_broadcast lp.nl skb 0 1] }
  else if b = 0x02 then
    { ret := 0
      dev := dev
      events :=
        (if x25tap_debug > 1 then [Event.printk KernLevel.KERN_DEBUG Msg.disconnect_request] else [])
        ++ [Event.netlink_broadcast lp.nl skb 0 1] }
  else if b = 0x03 then
    { ret := 0
      dev := dev
      events :=
        [Event.printk KernLevel.KERN_DEBUG Msg.options_not_supported,
         Event.netlink_broadcast lp.nl skb 0 1] }
  else
    { ret := -1
      dev := dev.set_stats { lp.stats with tx_dropped := ulong a (lp.stats.tx_dropped + 1) }
      events := [Event.printk KernLevel.KERN_DEBUG Msg.unknown_firstbyte, Event.kfree_skb skb] }

/-- Transmit callback.  `x25tap_debug` is the module global, `clone_ok` the
outcome of `skb_clone` should it be called. -/
def x25tap_start_xmit (a : Arch) (x25tap_debug : Int) (clone_ok : Bool)
    (skb : sk_buff) (dev : net_device) : Ret :=
  let lp := dev.priv
  if skb_shared skb then
    if !clone_ok then
      { ret := 0
        dev := dev.set_stats { lp.stats with tx_dropped := ulong a (lp.stats.tx_dropped + 1) }
        events := [Event.skb_clone skb false, Event.kfree_skb skb] }
    else
      let r := x25tap_start_xmit_switch a x25tap_debug (skb_clone skb) dev
      { r with events := [Event.skb_clone skb true, Event.kfree_skb skb] ++ r.events }
  else
    x25tap_start_xmit_switch a x25tap_debug skb dev

/-! ## `x25tap_rx_skb` (lines 204-248) and `x25tap_rx` (lines 257-274) -/

/-- Lines 234-238: the metadata written into the owned buffer.  The `memset`
of `skb->cb` clears the credentials stored there. -/
def x25tap_rx_skb_stamp (skb : sk_buff) (dev : net_device) : sk_buff :=
  { skb with
    dev := some dev.name
    protocol := ETH_P_X25
    mac_raw := some 0
    pkt_type := PACKET_HOST
    creds := { pid := 0, uid := 0, gid := 0 } }

/-- Lines 234-247: stamp the owned buffer, count it when it is a data frame,
hand it to `netif_rx`. -/
def x25tap_rx_skb_deliver (a : Arch) (jiffies : Nat) (len : Int)
    (skb : sk_buff) (dev : net_device) : Ret :=
  let lp := dev.priv
  let skb : sk_buff := x25tap_rx_skb_stamp skb dev
  let dev : net_device :=
    if skb.data0 = 0 then
      dev.set_stats
        { lp.stats with
          rx_packets := ulong a (lp.stats.rx_packets + 1)
          rx_bytes := ulong a (lp.stats.rx_bytes + len) }
    else dev
  { ret := len
    dev := { dev with last_rx := jiffies }
    events := [Event.netif_rx skb] }

/-- Per-message receive routine.  `clone_ok` is the outcome of `skb_clone`
should it be called, `jiffies` the kernel clock read on line 246. -/
def x25tap_rx_skb (a : Arch) (clone_ok : Bool) (jiffies : Nat)
    (skb : sk_buff) (dev : net_device) : Ret :=
  let lp := dev.priv
  let len : Int := int_of_u32 skb.len
  if len < 1 then
    { ret := -EINVAL
      dev := dev.set_stats { lp.stats with rx_errors := ulong a (lp.stats.rx_errors + 1) }
      events := [Event.printk KernLevel.KERN_DEBUG (Msg.rx_len dev.name len), Event.kfree_skb skb] }
  else if skb.creds.uid ≠ 0 then
    { ret := -EPERM
      dev := dev
      events := [Event.printk KernLevel.KERN_INFO (Msg.user dev.name skb.creds.uid), Event.kfree_skb skb] }
  else if skb_shared skb then
    if !clone_ok then
      { ret := -ENOBUFS
        dev := dev.set_stats { lp.stats with rx_dropped := ulong a (lp.stats.rx_dropped + 1) }
        events := [Event.skb_clone skb false, Event.kfree_skb skb] }
    else
      let r := x25tap_rx_skb_deliver a jiffies len (skb_clone skb) dev
      { r with events := [Event.skb_clone skb true, Event.kfree_skb skb] ++ r.events }
  else
    let r := x25tap_rx_skb_deliver a jiffies len (skb_orphan skb) dev
    { r with events := [Event.skb_orphan skb] ++ r.events }

/-- A netlink socket as the receive callback sees it. -/
structure sock where
  sk_protocol : Nat
  sk_receive_queue : List sk_buff
deriving DecidableEq, Repr

/-- The module globals.  `tap_map` holds, per slot, the device the stored
pointer refers to (`none` is NULL); a write through such a pointer is a write
to the slot. -/
structure Module where
  x25tap_debug : Int
  max_taps : Int
  tap_map : Nat → Option net_device

/-- Store into one slot of `tap_map`. -/
def tap_map_set (m : Nat → Option net_device) (unit : Nat) (d : Option net_device) :
    Nat → Option net_device :=
  fun u => if u = unit then d else m u

/-- Kernel `skb_queue_purge`: dequeue and `kfree_skb` every queued buffer. -/
def skb_queue_purge (q : List sk_buff) : List Event := q.map Event.kfree_skb

/-- The loop of lines 272-273 over the queued buffers, in arrival order.
`clone_ok i` and `jiffies i` are the kernel's answers while the `i`-th
dequeued buffer is handled.  The return value of `x25tap_rx_skb` is ignored. -/
def x25tap_rx_loop (a : Arch) (clone_ok : Nat → Bool) (jiffies : Nat → Nat) :
    List sk_buff → net_device → net_device × List Event
  | [], dev => (dev, [])
  | skb :: q, dev =>
    let r := x25tap_rx_skb a (clone_ok 0) (jiffies 0) skb dev
    let rest := x25tap_rx_loop a (fun i => clone_ok (i + 1)) (fun i => jiffies (i + 1)) q r.dev
    (rest.1, r.events ++ rest.2)

/-- Result of the receive callback. -/
structure RxRet where
  module : Module
  sk : sock
  events : List Event

/-- Data-ready callback of the netlink socket. -/
def x25tap_rx (a : Arch) (clone_ok : Nat → Bool) (jiffies : Nat → Nat)
    (m : Module) (sk : sock) (len : Int) : RxRet :=
  let unit : Nat := u32 ((sk.sk_protocol : Int) - 17)
  let bad : RxRet :=
    { module := m
      sk := { sk with sk_receive_queue := [] }
      events := Event.printk KernLevel.KERN_CRIT (Msg.bad_unit unit)
        :: skb_queue_purge sk.sk_receive_queue }
  if unit ≥ u32 m.max_taps then bad
  else
    match m.tap_map unit with
    | none => bad
    | some dev =>
      let r := x25tap_rx_loop a clone_ok jiffies sk.sk_receive_queue dev
      { module := { m with tap_map := tap_map_set m.tap_map unit (some r.1) }
        sk := { sk with sk_receive_queue := [] }
        events :=
          (if m.x25tap_debug > 3 then [Event.printk KernLevel.KERN_DEBUG (Msg.rx dev.name len)] else [])
          ++ r.2 }

/-! ## `x25tap_probe` (lines 82-129), `x25tap_open`, `x25tap_close`, `x25tap_get_stats` -/

/-- The answers of the kernel while one unit is probed: whether
`alloc_etherdev` returns a device, the `mem_start` found in the device after
`netdev_boot_setup_check`, and the return value of `register_netdev`. -/
structure ProbeEnv where
  alloc_ok : Bool
  mem_start : Nat
  register_ret : Int
deriving DecidableEq, Repr

/-- Interface flags a device has when `alloc_etherdev` returns it
(`IFF_BROADCAST | IFF_MULTICAST`). -/
def ether_setup_flags : Nat := 0x1002

/-- Result of a module-level routine. -/
structure ModRet where
  ret : Int
  module : Module
  events : List Event

/-- The device as `x25tap_probe` has set it up on line 119, before it is
registered: the fields assigned on lines 94-117, `mem_start` as the boot-time
setup check leaves it, and the private area zeroed by `alloc_etherdev`. -/
def x25tap_probe_dev (env : ProbeEnv) (unit : Nat) : net_device :=
  { name := ifname.x25tap unit
    base_addr := unit + 17
    mem_start := env.mem_start
    dev_addr := [0xFE, 0xFD, 0x00, 0x00, 0x00, 0x00]
    flags := ether_setup_flags ||| IFF_NOARP
    mtu := 1024
    hard_header_len := 1
    addr_len := 0
    type := ARPHRD_X25
    tx_queue_len := 10
    last_rx := 0
    queue_running := false
    priv :=
      { nl := none
        stats :=
          { rx_packets := 0, tx_packets := 0, rx_bytes := 0, tx_bytes := 0,
            rx_errors := 0, tx_errors := 0, rx_dropped := 0, tx_dropped := 0 } } }

/-- Create and register the device of one unit. -/
def x25tap_probe (env : ProbeEnv) (unit : Nat) (m : Module) : ModRet :=
  if !env.alloc_ok then
    { ret := -ENOMEM, module := m, events := [Event.alloc_etherdev false] }
  else
    let dev := x25tap_probe_dev env unit
    let m : Module :=
      if dev.mem_start &&& 0xf ≠ 0 then { m with x25tap_debug := ((dev.mem_start &&& 0x7 : Nat) : Int) }
      else m
    let err := env.register_ret
    if err ≠ 0 then
      { ret := err
        module := m
        events :=
          [Event.alloc_etherdev true, Event.netdev_boot_setup_check dev.name,
           Event.register_netdev dev.name err, Event.free_netdev (some dev.name)] }
    else
      { ret := 0
        module := { m with tap_map := tap_map_set m.tap_map unit (some dev) }
        events :=
          [Event.alloc_etherdev true, Event.netdev_boot_setup_check dev.name,
           Event.register_netdev dev.name 0, Event.tap_map_store unit (some dev.name)] }

/-- Open callback (lines 135-148); `create_ok` is whether
`netlink_kernel_create` returns a socket. -/
def x25tap_open (x25tap_debug : Int) (create_ok : Bool) (dev : net_device) : Ret :=
  let pre : List Event :=
    (if x25tap_debug > 2 then [Event.printk KernLevel.KERN_DEBUG (Msg.doing_open dev.name)] else [])
    ++ [Event.netlink_kernel_create dev.base_addr create_ok]
  if !create_ok then
    { ret := -ENOBUFS
      dev := { dev with priv := { dev.priv with nl := none } }
      events := pre }
  else
    { ret := 0
      dev := { dev with priv := { dev.priv with nl := some dev.base_addr }, queue_running := true }
      events := pre ++ [Event.netif_start_queue dev.name] }

/-- Stop callback (lines 276-292). -/
def x25tap_close (x25tap_debug : Int) (dev : net_device) : Ret :=
  let pre : List Event :=
    (if x25tap_debug > 2 then [Event.printk KernLevel.KERN_DEBUG (Msg.shutting_down dev.name)] else [])
    ++ [Event.netif_stop_queue dev.name]
  match dev.priv.nl with
  | some sk =>
    { ret := 0
      dev := { dev with priv := { dev.priv with nl := none }, queue_running := false }
      events := pre ++ [Event.sock_release sk] }
  | none =>
    { ret := 0
      dev := { dev with queue_running := false }
      events := pre }

/-- Statistics callback (lines 294-298). -/
def x25tap_get_stats (dev : net_device) : net_device_stats := dev.priv.stats

/-! ## `x25tap_init` (lines 301-326) and `x25tap_cleanup` (lines 329-342) -/

/-- The loop `while (--i > 0) { unregister_netdev(tap_map[i]); free_netdev(tap_map[i]); }`
of lines 316-319, entered with the value the argument gives to `i`.  One
round decrements `i`, tests the decremented value against 0, and runs the
body with it. -/
def x25tap_init_rollback (m : Module) : Nat → List Event
  | 0 => []
  | i + 1 =>
    if i > 0 then
      [Event.unregister_netdev ((m.tap_map i).map net_device.name),
       Event.free_netdev ((m.tap_map i).map net_device.name)]
      ++ x25tap_init_rollback m i
    else []

/-- The loop `for (i = 0; i < max_taps; i++)` of lines 313-322 from the
value `i` on; `todo` is the number of rounds left, `max_taps - i`.  `env i`
are the kernel's answers while unit `i` is probed. -/
def x25tap_init_loop (env : Nat → ProbeEnv) : (todo : Nat) → (i : Nat) → Module → ModRet
  | 0, _, m => { ret := 0, module := m, events := [] }
  | todo + 1, i, m =>
    let p := x25tap_probe (env i) i m
    if p.ret ≠ 0 then
      { ret := p.ret
        module := p.module
        events := p.events ++ x25tap_init_rollback p.module i }
    else
      let r := x25tap_init_loop env todo (i + 1) p.module
      { r with events := p.events ++ r.events }

/-- Module load.  `MAX_LINKS` is the constant of `linux/netlink.h`;
`kmalloc` is `none` when the allocation of `tap_map` fails and otherwise the
contents of the memory it returns (which `kmalloc` does not clear). -/
def x25tap_init (MAX_LINKS : Int) (kmalloc : Option (Nat → Option net_device))
    (env : Nat → ProbeEnv) (m : Module) : ModRet :=
  if m.max_taps > MAX_LINKS - 17 then
    { ret := -E2BIG, module := m, events := [] }
  else
    match kmalloc with
    | none =>
      { ret := -ENOMEM, module := m, events := [Event.kmalloc_tap_map m.max_taps false] }
    | some mem =>
      let r := x25tap_init_loop env m.max_taps.toNat 0 { m with tap_map := mem }
      { r with
        events :=
          [Event.kmalloc_tap_map m.max_taps true] ++ r.events
          ++ (if r.ret ≠ 0 then [Event.kfree_tap_map] else []) }

/-- The loop of lines 333-340 from the value `i` on; `todo` is the number of
rounds left, `max_taps - i`. -/
def x25tap_cleanup_loop : (todo : Nat) → (i : Nat) → Module → Module × List Event
  | 0, _, m => (m, [])
  | todo + 1, i, m =>
    match m.tap_map i with
    | some dev =>
      let r := x25tap_cleanup_loop todo (i + 1) { m with tap_map := tap_map_set m.tap_map i none }
      (r.1,
       [Event.tap_map_store i none, Event.unregister_netdev (some dev.name),
        Event.free_netdev (some dev.name)] ++ r.2)
    | none => x25tap_cleanup_loop todo (i + 1) m

/-- Module unload. -/
def x25tap_cleanup (m : Module) : Module × List Event :=
  let r := x25tap_cleanup_loop m.max_taps.toNat 0 m
  (r.1, r.2 ++ [Event.kfree_tap_map])

/-! ## Concrete inputs used to exercise the theorems -/

/-- An empty frame nobody else holds, with the byte 0x01 lying in the buffer
behind it. -/
def empty_frame : sk_buff :=
  { data := [], len_lt := by decide, stale := 0x01, users := 1, sk := none,
    creds := { pid := 0, uid := 0, gid := 0 }, dev := none, protocol := 0,
    mac_raw := none, pkt_type := 0 }

/-- A freshly probed unit 0, opened on its netlink unit 17. -/
def tap0 : net_device :=
  { x25tap_probe_dev { alloc_ok := true, mem_start := 0, register_ret := 0 } 0 with
    priv := { (x25tap_probe_dev { alloc_ok := true, mem_start := 0, register_ret := 0 } 0).priv with
              nl := some 17 }
    queue_running := true }


/-- The module globals before load, with `max_taps=3` given on the command line. -/
def three_taps : Module :=
  { x25tap_debug := 5, max_taps := 3, tap_map := fun _ => none }

/-- Kernel answers under which every probe succeeds except that of unit `k`,
whose `register_netdev` returns `-ENODEV` (-19). -/
def register_fails_at (k : Nat) : Nat → ProbeEnv :=
  fun u => { alloc_ok := true, mem_start := 0, register_ret := if u = k then -19 else 0 }

/-- Kernel answers under which every probe succeeds. -/
def all_probes_ok : Nat → ProbeEnv :=
  fun _ => { alloc_ok := true, mem_start := 0, register_ret := 0 }

/-- The connect request `[0x01, 0xAA]`, held by the caller alone. -/
def connect_frame : sk_buff :=
  { data := [0x01, 0xAA], len_lt := by decide, stale := 0, users := 1, sk := none,
    creds := { pid := 0, uid := 0, gid := 0 }, dev := none, protocol := 0,
    mac_raw := none, pkt_type := 0 }

/-- A frame `[0x07, 0x55]`, whose first byte is no known code. -/
def unknown_frame : sk_buff :=
  { data := [0x07, 0x55], len_lt := by decide, stale := 0, users := 1, sk := none,
    creds := { pid := 0, uid := 0, gid := 0 }, dev := none, protocol := 0,
    mac_raw := none, pkt_type := 0 }

/-- A data frame `[0x00, 0x10, 0x20]` with two holders, sent by uid 0 from
netlink socket 4. -/
def shared_data_frame : sk_buff :=
  { data := [0x00, 0x10, 0x20], len_lt := by decide, stale := 0, users := 2, sk := some 4,
    creds := { pid := 321, uid := 0, gid := 0 }, dev := none, protocol := 0,
    mac_raw := none, pkt_type := 0 }

/-- A data message `[0x00, 0x10]` sent by uid 0. -/
def root_message : sk_buff :=
  { data := [0x00, 0x10], len_lt := by decide, stale := 0, users := 1, sk := some 4,
    creds := { pid := 321, uid := 0, gid := 0 }, dev := none, protocol := 0,
    mac_raw := none, pkt_type := 0 }

/-- A data message `[0x00, 0x10]` sent by uid 1000. -/
def user_message : sk_buff :=
  { data := [0x00, 0x10], len_lt := by decide, stale := 0, users := 1, sk := some 4,
    creds := { pid := 321, uid := 1000, gid := 100 }, dev := none, protocol := 0,
    mac_raw := none, pkt_type := 0 }

/-- A message of length 0 sent by uid 1000. -/
def user_empty_message : sk_buff :=
  { data := [], len_lt := by decide, stale := 0, users := 1, sk := some 4,
    creds := { pid := 321, uid := 1000, gid := 100 }, dev := none, protocol := 0,
    mac_raw := none, pkt_type := 0 }

/-- The module with `max_taps = 3` and only unit 0 in `tap_map`. -/
def one_of_three : Module :=
  { x25tap_debug := 5, max_taps := 3, tap_map := fun u => if u = 0 then some tap0 else none }

/-- A socket of netlink unit 5 (below the base 17) with two queued messages. -/
def low_sock : sock :=
  { sk_protocol := 5, sk_receive_queue := [root_message, user_message] }

theorem ulong_succ (a : Arch) (x : Nat) :
    ulong a ((x : Int) + 1) = (x + 1) % 2 ^ BITS_PER_LONG a := by
  cases a <;> simp only [ulong, BITS_PER_LONG] <;> omega

theorem ulong_add_nat (a : Arch) (x y : Nat) :
    ulong a ((x : Int) + (y : Int)) = (x + y) % 2 ^ BITS_PER_LONG a := by
  cases a <;> simp only [ulong, BITS_PER_LONG] <;> omega

theorem u32_pred (n : Nat) (h1 : 1 ≤ n) (h2 : n < 2 ^ 32) : u32 ((n : Int) - 1) = n - 1 := by
  simp only [u32]; omega

theorem int_of_u32_small (n : Nat) (h : n < 2 ^ 31) : int_of_u32 n = (n : Int) := by
  unfold int_of_u32
  have h1 : n % 2 ^ 32 = n := Nat.mod_eq_of_lt (by omega)
  rw [h1, if_pos h]

theorem ulong_succ_ne (a : Arch) (x : Nat) : (x + 1) % 2 ^ BITS_PER_LONG a ≠ x := by
  cases a <;> simp only [BITS_PER_LONG] <;> omega


theorem data0_cons (skb : sk_buff) (b : Nat) (rest : List Nat) (h : skb.data = b :: rest) :
    skb.data0 = b := by
  simp [sk_buff.data0, h]

theorem skb_clone_data (skb : sk_buff) : (skb_clone skb).data = skb.data := rfl

theorem skb_clone_data0 (skb : sk_buff) : (skb_clone skb).data0 = skb.data0 := rfl

theorem skb_clone_len (skb : sk_buff) : (skb_clone skb).len = skb.len := rfl

theorem skb_clone_ne (skb : sk_buff) (h : skb_shared skb = true) : skb_clone skb ≠ skb := by
  intro e
  have hu : (skb_clone skb).users = skb.users := by rw [e]
  simp [skb_shared] at h
  exact h hu.symm

theorem len_lt_u32 (skb : sk_buff) : skb.len < 2 ^ 32 := by
  have := skb.len_lt
  unfold sk_buff.len
  omega

/-- What the switch does with a frame whose first byte is a recognised code. -/
theorem switch_recognised (a : Arch) (dbg : Int) (skb : sk_buff) (dev : net_device)
    (hlen : 1 ≤ skb.len) (hb : skb.data0 = 0 ∨ skb.data0 = 1 ∨ skb.data0 = 2 ∨ skb.data0 = 3) :
    (x25tap_start_xmit_switch a dbg skb dev).events.filter Event.is_netlink_broadcast
        = [Event.netlink_broadcast dev.priv.nl skb 0 1] ∧
    (x25tap_start_xmit_switch a dbg skb dev).ret = 0 ∧
    (skb.data0 = 0 →
      (x25tap_start_xmit_switch a dbg skb dev).dev = dev.set_stats
        { dev.priv.stats with
          tx_bytes := (dev.priv.stats.tx_bytes + (skb.len - 1)) % 2 ^ BITS_PER_LONG a
          tx_packets := (dev.priv.stats.tx_packets + 1) % 2 ^ BITS_PER_LONG a }) ∧
    (skb.data0 ≠ 0 → (x25tap_start_xmit_switch a dbg skb dev).dev = dev) := by
  have hu : u32 ((skb.len : Int) - 1) = skb.len - 1 := u32_pred _ hlen (len_lt_u32 skb)
  rcases hb with h | h | h | h
  · simp [x25tap_start_xmit_switch, h, Event.is_netlink_broadcast, hu, ulong_succ, ulong_add_nat]
  · by_cases hd : dbg > 1 <;>
      simp [x25tap_start_xmit_switch, h, Event.is_netlink_broadcast, hd]
  · by_cases hd : dbg > 1 <;>
      simp [x25tap_start_xmit_switch, h, Event.is_netlink_broadcast, hd]
  · simp [x25tap_start_xmit_switch, h, Event.is_netlink_broadcast]

/-- C5: an outbound frame of length at least 1 whose first byte is 0x00, 0x01,
0x02 or 0x03, once owned by the callback (not shared, or cloned), is broadcast
whole and unchanged on the control channel exactly once, the callback returns
0, `tx_dropped` keeps its value, and the statistics change only for 0x00, by
`len - 1` bytes and 1 packet (in `unsigned long` arithmetic). -/
theorem start_xmit_recognised_code (a : Arch) (dbg : Int) (clone_ok : Bool)
    (skb : sk_buff) (dev : net_device) (b : Nat) (rest : List Nat)
    (hdata : skb.data = b :: rest)
    (hb : b = 0x00 ∨ b = 0x01 ∨ b = 0x02 ∨ b = 0x03)
    (hown : skb_shared skb = false ∨ clone_ok = true) :
    (if skb_shared skb then skb_clone skb else skb).data = b :: rest ∧
    (x25tap_start_xmit a dbg clone_ok skb dev).events.filter Event.is_netlink_broadcast
      = [Event.netlink_broadcast dev.priv.nl (if skb_shared skb then skb_clone skb else skb) 0 1] ∧
    (x25tap_start_xmit a dbg clone_ok skb dev).ret = 0 ∧
    (x25tap_start_xmit a dbg clone_ok skb dev).dev.priv.stats.tx_dropped
      = dev.priv.stats.tx_dropped ∧
    (b = 0x00 →
      (x25tap_start_xmit a dbg clone_ok skb dev).dev = dev.set_stats
        { dev.priv.stats with
          tx_bytes := (dev.priv.stats.tx_bytes + (skb.len - 1)) % 2 ^ BITS_PER_LONG a
          tx_packets := (dev.priv.stats.tx_packets + 1) % 2 ^ BITS_PER_LONG a }) ∧
    (b ≠ 0x00 → (x25tap_start_xmit a dbg clone_ok skb dev).dev = dev) := by
  have h0 : skb.data0 = b := data0_cons skb b rest hdata
  have hlen : 1 ≤ skb.len := by simp [sk_buff.len, hdata]
  cases hs : skb_shared skb
  · have hsw := switch_recognised a dbg skb dev hlen (by rw [h0]; exact hb)
    obtain ⟨e1, e2, e3, e4⟩ := hsw
    have hx : x25tap_start_xmit a dbg clone_ok skb dev = x25tap_start_xmit_switch a dbg skb dev := by
      simp [x25tap_start_xmit, hs]
    rw [hx]
    refine ⟨by simpa using hdata, by simpa using e1, e2, ?_, ?_, ?_⟩
    · rcases hb with h | h | h | h
      · rw [e3 (by rw [h0]; exact h)]; rfl
      · rw [e4 (by rw [h0, h]; decide)]
      · rw [e4 (by rw [h0, h]; decide)]
      · rw [e4 (by rw [h0, h]; decide)]
    · intro h; exact e3 (by rw [h0]; exact h)
    · intro h; exact e4 (by rw [h0]; exact h)
  · have hc : clone_ok = true := by
      rcases hown with h | h
      · rw [hs] at h; cases h
      · exact h
    have hsw := switch_recognised a dbg (skb_clone skb) dev (by rw [skb_clone_len]; exact hlen)
      (by rw [skb_clone_data0, h0]; exact hb)
    rw [skb_clone_data0, skb_clone_len] at hsw
    obtain ⟨e1, e2, e3, e4⟩ := hsw
    have hev : (x25tap_start_xmit a dbg clone_ok skb dev).events =
        [Event.skb_clone skb true, Event.kfree_skb skb]
          ++ (x25tap_start_xmit_switch a dbg (skb_clone skb) dev).events := by
      simp [x25tap_start_xmit, hs, hc]
    have hret : (x25tap_start_xmit a dbg clone_ok skb dev).ret =
        (x25tap_start_xmit_switch a dbg (skb_clone skb) dev).ret := by
      simp [x25tap_start_xmit, hs, hc]
    have hdev : (x25tap_start_xmit a dbg clone_ok skb dev).dev =
        (x25tap_start_xmit_switch a dbg (skb_clone skb) dev).dev := by
      simp [x25tap_start_xmit, hs, hc]
    rw [hev, hret, hdev]
    refine ⟨by simpa [skb_clone_data] using hdata, ?_, e2, ?_, ?_, ?_⟩
    · simpa [Event.is_netlink_broadcast] using e1
    · rcases hb with h | h | h | h
      · rw [e3 (by rw [h0]; exact h)]; rfl
      · rw [e4 (by rw [h0, h]; decide)]
      · rw [e4 (by rw [h0, h]; decide)]
      · rw [e4 (by rw [h0, h]; decide)]
    · intro h; exact e3 (by rw [h0]; exact h)
    · intro h; exact e4 (by rw [h0]; exact h)


/-- The switch never clones, and releases no buffer but the one it was given. -/
theorem switch_events_other (a : Arch) (dbg : Int) (s skb : sk_buff) (dev : net_device)
    (hne : s ≠ skb) :
    (x25tap_start_xmit_switch a dbg s dev).events.filter Event.is_skb_clone = [] ∧
    (x25tap_start_xmit_switch a dbg s dev).events.count (Event.kfree_skb skb) = 0 := by
  have hne2 : ¬ (Event.kfree_skb s = Event.kfree_skb skb) := by
    intro h; injection h with h; exact hne h
  by_cases hd : dbg > 1 <;> by_cases h0 : s.data0 = 0 <;> by_cases h1 : s.data0 = 1 <;>
    by_cases h2 : s.data0 = 2 <;> by_cases h3 : s.data0 = 3 <;>
    simp [x25tap_start_xmit_switch, Event.is_skb_clone, List.count_cons, hne2, hd, h0, h1, h2, h3]

/-- C6: an outbound frame of length at least 1 whose first byte is none of
0x00..0x03, once owned by the callback, is released and not broadcast; the
callback returns -1, `tx_dropped` is incremented once and no other counter
(in particular neither `tx_bytes` nor `tx_packets`) changes. -/
theorem start_xmit_unknown_code (a : Arch) (dbg : Int) (clone_ok : Bool)
    (skb : sk_buff) (dev : net_device) (b : Nat) (rest : List Nat)
    (hdata : skb.data = b :: rest)
    (hb : b ≠ 0x00 ∧ b ≠ 0x01 ∧ b ≠ 0x02 ∧ b ≠ 0x03)
    (hown : skb_shared skb = false ∨ clone_ok = true) :
    (x25tap_start_xmit a dbg clone_ok skb dev).ret = -1 ∧
    (x25tap_start_xmit a dbg clone_ok skb dev).dev = dev.set_stats
      { dev.priv.stats with
        tx_dropped := (dev.priv.stats.tx_dropped + 1) % 2 ^ BITS_PER_LONG a } ∧
    (x25tap_start_xmit a dbg clone_ok skb dev).dev.priv.stats.tx_bytes = dev.priv.stats.tx_bytes ∧
    (x25tap_start_xmit a dbg clone_ok skb dev).dev.priv.stats.tx_packets = dev.priv.stats.tx_packets ∧
    (x25tap_start_xmit a dbg clone_ok skb dev).events
      = (if skb_shared skb then [Event.skb_clone skb true, Event.kfree_skb skb] else [])
        ++ [Event.printk KernLevel.KERN_DEBUG Msg.unknown_firstbyte,
            Event.kfree_skb (if skb_shared skb then skb_clone skb else skb)] ∧
    (x25tap_start_xmit a dbg clone_ok skb dev).events.filter Event.is_netlink_broadcast = [] := by
  have h0 : skb.data0 = b := data0_cons skb b rest hdata
  obtain ⟨b0, b1, b2, b3⟩ := hb
  cases hs : skb_shared skb
  · simp [x25tap_start_xmit, x25tap_start_xmit_switch, hs, h0, b0, b1, b2, b3, ulong_succ,
      Event.is_netlink_broadcast, net_device.set_stats]
  · have hc : clone_ok = true := by
      rcases hown with h | h
      · rw [hs] at h; cases h
      · exact h
    simp [x25tap_start_xmit, x25tap_start_xmit_switch, hs, hc, skb_clone_data0, h0, b0, b1, b2, b3,
      ulong_succ, Event.is_netlink_broadcast, net_device.set_stats]

/-- C3 (the code at the failing input): a frame of length 0 is not rejected.
The switch runs on the byte found behind the frame: with 0x01 there the empty
frame is logged as a connection request and broadcast, and the callback
returns 0; with 0x00 there it is counted as a data frame of
`(unsigned int)(0 - 1)` bytes; with 0x04 there it is dropped with -1. -/
theorem start_xmit_empty_frame_is_classified :
    empty_frame.len = 0 ∧
    x25tap_start_xmit Arch.lp64 5 true empty_frame tap0
      = { ret := 0
          dev := tap0
          events := [Event.printk KernLevel.KERN_DEBUG Msg.connection_request,
                     Event.netlink_broadcast (some 17) empty_frame 0 1] } ∧
    (x25tap_start_xmit Arch.lp64 5 true { empty_frame with stale := 0x00 } tap0).dev.priv.stats.tx_bytes
      = 4294967295 ∧
    (x25tap_start_xmit Arch.lp64 5 true { empty_frame with stale := 0x04 } tap0).ret = -1 := by
  refine ⟨rfl, ?_, ?_, ?_⟩
  · decide
  · decide
  · decide


/-! ## The receive routine `x25tap_rx_skb` -/

theorem len_of_cons (skb : sk_buff) (b : Nat) (rest : List Nat) (h : skb.data = b :: rest) :
    1 ≤ skb.len := by
  simp [sk_buff.len, h]

/-- The `int len` of line 207 is the frame length. -/
theorem rx_len_eq (skb : sk_buff) : int_of_u32 skb.len = (skb.len : Int) :=
  int_of_u32_small skb.len skb.len_lt

theorem rx_len_not_lt (skb : sk_buff) (h : 1 ≤ skb.len) : ¬ (int_of_u32 skb.len < 1) := by
  rw [rx_len_eq]; omega

/-- What lines 234-247 do with the buffer they are given. -/
theorem deliver_spec (a : Arch) (jiffies : Nat) (len : Nat) (s : sk_buff) (dev : net_device) :
    (∃ f : sk_buff,
      (x25tap_rx_skb_deliver a jiffies (len : Int) s dev).events = [Event.netif_rx f] ∧
      f.data = s.data ∧ f.dev = some dev.name ∧
      f.protocol = ETH_P_X25 ∧ f.pkt_type = PACKET_HOST) ∧
    (x25tap_rx_skb_deliver a jiffies (len : Int) s dev).ret = (len : Int) ∧
    (s.data0 = 0 →
      (x25tap_rx_skb_deliver a jiffies (len : Int) s dev).dev.priv.stats =
        { dev.priv.stats with
          rx_packets := (dev.priv.stats.rx_packets + 1) % 2 ^ BITS_PER_LONG a
          rx_bytes := (dev.priv.stats.rx_bytes + len) % 2 ^ BITS_PER_LONG a }) ∧
    (s.data0 ≠ 0 →
      (x25tap_rx_skb_deliver a jiffies (len : Int) s dev).dev.priv.stats = dev.priv.stats) := by
  refine ⟨⟨_, rfl, rfl, rfl, rfl, rfl⟩, rfl, ?_, ?_⟩
  · intro h
    have h2 : (x25tap_rx_skb_stamp s dev).data0 = 0 := h
    simp [x25tap_rx_skb_deliver, h2, net_device.set_stats, ulong_succ, ulong_add_nat]
  · intro h
    have h2 : ¬ (x25tap_rx_skb_stamp s dev).data0 = 0 := h
    simp [x25tap_rx_skb_deliver, h2]
/-- C9: an inbound message of length at least 1 from uid 0, once owned by the
routine (not shared, or cloned), is handed to `netif_rx` exactly once, with
the same bytes and stamped with the interface; the routine returns the
length; `rx_packets` and `rx_bytes` are bumped by 1 and by `len` (in
`unsigned long` arithmetic) exactly when the first byte is 0x00, no counter
changes otherwise, and `rx_errors` and `rx_dropped` keep their values. -/
theorem rx_skb_accepted (a : Arch) (clone_ok : Bool) (jiffies : Nat)
    (skb : sk_buff) (dev : net_device) (b : Nat) (rest : List Nat)
    (hdata : skb.data = b :: rest)
    (huid : skb.creds.uid = 0)
    (hown : skb_shared skb = false ∨ clone_ok = true) :
    (∃ f : sk_buff,
      (x25tap_rx_skb a clone_ok jiffies skb dev).events.filter Event.is_netif_rx
        = [Event.netif_rx f] ∧
      f.data = b :: rest ∧ f.dev = some dev.name) ∧
    (x25tap_rx_skb a clone_ok jiffies skb dev).ret = (skb.len : Int) ∧
    (b = 0x00 →
      (x25tap_rx_skb a clone_ok jiffies skb dev).dev.priv.stats =
        { dev.priv.stats with
          rx_packets := (dev.priv.stats.rx_packets + 1) % 2 ^ BITS_PER_LONG a
          rx_bytes := (dev.priv.stats.rx_bytes + skb.len) % 2 ^ BITS_PER_LONG a }) ∧
    (b ≠ 0x00 →
      (x25tap_rx_skb a clone_ok jiffies skb dev).dev.priv.stats = dev.priv.stats) ∧
    ((x25tap_rx_skb a clone_ok jiffies skb dev).dev.priv.stats.rx_packets
        = (dev.priv.stats.rx_packets + 1) % 2 ^ BITS_PER_LONG a ↔ b = 0x00) ∧
    (x25tap_rx_skb a clone_ok jiffies skb dev).dev.priv.stats.rx_errors
      = dev.priv.stats.rx_errors ∧
    (x25tap_rx_skb a clone_ok jiffies skb dev).dev.priv.stats.rx_dropped
      = dev.priv.stats.rx_dropped := by
  have h0 : skb.data0 = b := data0_cons skb b rest hdata
  have hlen : ¬ (int_of_u32 skb.len < 1) := rx_len_not_lt skb (len_of_cons skb b rest hdata)
  have hnz : ¬ skb.len = 0 := by have := len_of_cons skb b rest hdata; omega
  -- the buffer the routine owns, and the pieces of its result
  obtain ⟨own, hown_data, hev, hret, hdev⟩ : ∃ own : sk_buff, own.data = skb.data ∧
      (x25tap_rx_skb a clone_ok jiffies skb dev).events.filter Event.is_netif_rx
        = (x25tap_rx_skb_deliver a jiffies (skb.len : Int) own dev).events.filter Event.is_netif_rx ∧
      (x25tap_rx_skb a clone_ok jiffies skb dev).ret
        = (x25tap_rx_skb_deliver a jiffies (skb.len : Int) own dev).ret ∧
      (x25tap_rx_skb a clone_ok jiffies skb dev).dev
        = (x25tap_rx_skb_deliver a jiffies (skb.len : Int) own dev).dev := by
    cases hs : skb_shared skb
    · refine ⟨skb_orphan skb, rfl, ?_, ?_, ?_⟩ <;>
        simp [x25tap_rx_skb, hnz, huid, hs, rx_len_eq, Event.is_netif_rx]
    · have hc : clone_ok = true := by
        rcases hown with h | h
        · rw [hs] at h; cases h
        · exact h
      refine ⟨skb_clone skb, rfl, ?_, ?_, ?_⟩ <;>
        simp [x25tap_rx_skb, hnz, huid, hs, hc, rx_len_eq, Event.is_netif_rx]
  have hown0 : own.data0 = b := by
    simp [sk_buff.data0, hown_data, hdata]
  obtain ⟨⟨f, e1, e2, e3, _⟩, e4, e5, e6⟩ := deliver_spec a jiffies skb.len own dev
  rw [hev, hret, hdev]
  have hstat0 : b = 0 → _ := fun h => e5 (by rw [hown0]; exact h)
  have hstat1 : b ≠ 0 → _ := fun h => e6 (by rw [hown0]; exact h)
  refine ⟨⟨f, ?_, ?_, e3⟩, e4, hstat0, hstat1, ?_, ?_, ?_⟩
  · rw [e1]; simp [Event.is_netif_rx]
  · rw [e2, hown_data, hdata]
  · constructor
    · intro h
      by_contra hb
      rw [hstat1 hb] at h
      exact ulong_succ_ne a _ h.symm
    · intro h
      rw [hstat0 h]
  · by_cases hb : b = 0
    · rw [hstat0 hb]
    · rw [hstat1 hb]
  · by_cases hb : b = 0
    · rw [hstat0 hb]
    · rw [hstat1 hb]

/-- C2 (amended): a message whose sender uid is not 0 is never handed to
`netif_rx`, whatever its length; when its length is at least 1 the routine
returns `-EPERM`, releases it and leaves the device, hence every counter, as
it was; when its length is 0 the length check comes first and `rx_errors` is
incremented. -/
theorem rx_skb_unauthorised_sender (a : Arch) (clone_ok : Bool) (jiffies : Nat)
    (skb : sk_buff) (dev : net_device) (huid : skb.creds.uid ≠ 0) :
    (x25tap_rx_skb a clone_ok jiffies skb dev).events.filter Event.is_netif_rx = [] ∧
    (1 ≤ skb.len →
      (x25tap_rx_skb a clone_ok jiffies skb dev).dev = dev ∧
      (x25tap_rx_skb a clone_ok jiffies skb dev).ret = -EPERM ∧
      (x25tap_rx_skb a clone_ok jiffies skb dev).events
        = [Event.printk KernLevel.KERN_INFO (Msg.user dev.name skb.creds.uid),
           Event.kfree_skb skb]) ∧
    (skb.len = 0 →
      (x25tap_rx_skb a clone_ok jiffies skb dev).dev.priv.stats =
        { dev.priv.stats with
          rx_errors := (dev.priv.stats.rx_errors + 1) % 2 ^ BITS_PER_LONG a }) := by
  by_cases hl : 1 ≤ skb.len
  · have hlen : ¬ (int_of_u32 skb.len < 1) := rx_len_not_lt skb hl
    refine ⟨?_, fun _ => ?_, fun h => ?_⟩
    · simp [x25tap_rx_skb, hlen, huid, Event.is_netif_rx]
    · simp [x25tap_rx_skb, hlen, huid]
    · omega
  · have hz : skb.len = 0 := by omega
    have hlen : int_of_u32 skb.len < 1 := by rw [rx_len_eq, hz]; decide
    refine ⟨?_, fun h => absurd h hl, fun _ => ?_⟩
    · simp [x25tap_rx_skb, hlen, Event.is_netif_rx]
    · simp [x25tap_rx_skb, hlen, net_device.set_stats, ulong_succ]

/-! ## The receive callback `x25tap_rx` -/

/-- C7: when the unit computed from the socket, `(unsigned)(sk_protocol - 17)`,
is at least `max_taps` (in the unsigned comparison of line 263, which is the
plain comparison whenever `max_taps` is not negative) or its slot of `tap_map`
is empty, the callback empties the receive queue by releasing every queued
buffer, hands nothing to `netif_rx`, and leaves the module state, hence every
counter of every tap, untouched. -/
theorem rx_unresolvable_unit (a : Arch) (clone_ok : Nat → Bool) (jiffies : Nat → Nat)
    (m : Module) (sk : sock) (len : Int)
    (h : u32 m.max_taps ≤ u32 ((sk.sk_protocol : Int) - 17)
       ∨ (0 ≤ m.max_taps ∧ m.max_taps ≤ (u32 ((sk.sk_protocol : Int) - 17) : Int))
       ∨ m.tap_map (u32 ((sk.sk_protocol : Int) - 17)) = none) :
    (x25tap_rx a clone_ok jiffies m sk len).sk.sk_receive_queue = [] ∧
    (x25tap_rx a clone_ok jiffies m sk len).events
      = Event.printk KernLevel.KERN_CRIT (Msg.bad_unit (u32 ((sk.sk_protocol : Int) - 17)))
        :: sk.sk_receive_queue.map Event.kfree_skb ∧
    (x25tap_rx a clone_ok jiffies m sk len).events.filter Event.is_netif_rx = [] ∧
    (x25tap_rx a clone_ok jiffies m sk len).module = m := by
  have hbad : x25tap_rx a clone_ok jiffies m sk len =
      { module := m
        sk := { sk with sk_receive_queue := [] }
        events := Event.printk KernLevel.KERN_CRIT (Msg.bad_unit (u32 ((sk.sk_protocol : Int) - 17)))
          :: skb_queue_purge sk.sk_receive_queue } := by
    by_cases hge : u32 ((sk.sk_protocol : Int) - 17) ≥ u32 m.max_taps
    · simp only [x25tap_rx, hge, if_true]
    · rcases h with h | h | h
      · exact absurd h hge
      · exfalso
        apply hge
        have hu : u32 ((sk.sk_protocol : Int) - 17) < 2 ^ 32 := by
          simp only [u32]; omega
        have : u32 m.max_taps = m.max_taps.toNat := by
          simp only [u32]; omega
        omega
      · simp only [x25tap_rx, hge, if_false, h]
  rw [hbad]
  refine ⟨rfl, rfl, ?_, rfl⟩
  simp [skb_queue_purge, Event.is_netif_rx, List.filter_eq_nil_iff]

/-! ## Shared buffers -/

/-- C4: for a shared buffer, at the transmit callback and at the receive
routine (past its length and sender checks), `skb_clone` is called exactly
once and exactly one reference to the original is released, whether or not
the clone succeeds; when it fails, `tx_dropped` (transmit) or `rx_dropped`
(receive) is incremented once, nothing else in the device changes, and the
only kernel calls made are that clone attempt and that release: no broadcast,
no `netif_rx`. -/
theorem shared_buffer_clone_and_release (a : Arch) (dbg : Int) (clone_ok : Bool)
    (jiffies : Nat) (skb : sk_buff) (dev : net_device) (hs : skb_shared skb = true) :
    ((x25tap_start_xmit a dbg clone_ok skb dev).events.filter Event.is_skb_clone
        = [Event.skb_clone skb clone_ok] ∧
      (x25tap_start_xmit a dbg clone_ok skb dev).events.count (Event.kfree_skb skb) = 1 ∧
      (clone_ok = false →
        (x25tap_start_xmit a dbg clone_ok skb dev).dev = dev.set_stats
          { dev.priv.stats with
            tx_dropped := (dev.priv.stats.tx_dropped + 1) % 2 ^ BITS_PER_LONG a } ∧
        (x25tap_start_xmit a dbg clone_ok skb dev).events
          = [Event.skb_clone skb false, Event.kfree_skb skb] ∧
        (x25tap_start_xmit a dbg clone_ok skb dev).events.filter
          (fun e => e.is_netlink_broadcast || e.is_netif_rx) = [])) ∧
    (1 ≤ skb.len → skb.creds.uid = 0 →
      (x25tap_rx_skb a clone_ok jiffies skb dev).events.filter Event.is_skb_clone
        = [Event.skb_clone skb clone_ok] ∧
      (x25tap_rx_skb a clone_ok jiffies skb dev).events.count (Event.kfree_skb skb) = 1 ∧
      (clone_ok = false →
        (x25tap_rx_skb a clone_ok jiffies skb dev).dev = dev.set_stats
          { dev.priv.stats with
            rx_dropped := (dev.priv.stats.rx_dropped + 1) % 2 ^ BITS_PER_LONG a } ∧
        (x25tap_rx_skb a clone_ok jiffies skb dev).events
          = [Event.skb_clone skb false, Event.kfree_skb skb] ∧
        (x25tap_rx_skb a clone_ok jiffies skb dev).events.filter
          (fun e => e.is_netlink_broadcast || e.is_netif_rx) = [])) := by
  constructor
  · cases clone_ok
    · simp [x25tap_start_xmit, hs, Event.is_skb_clone, Event.is_netlink_broadcast,
        Event.is_netif_rx, ulong_succ, List.count_cons]
    · obtain ⟨e1, e2⟩ := switch_events_other a dbg (skb_clone skb) skb dev (skb_clone_ne skb hs)
      have hev : (x25tap_start_xmit a dbg true skb dev).events =
          [Event.skb_clone skb true, Event.kfree_skb skb]
            ++ (x25tap_start_xmit_switch a dbg (skb_clone skb) dev).events := by
        simp [x25tap_start_xmit, hs]
      rw [hev]
      refine ⟨?_, ?_, fun h => by cases h⟩
      · rw [List.filter_append, e1]; simp [Event.is_skb_clone]
      · rw [List.count_append, e2]; simp [List.count_cons]
  · intro hl huid
    have hnz : ¬ skb.len = 0 := by omega
    cases clone_ok
    · simp [x25tap_rx_skb, hnz, huid, hs, rx_len_eq, Event.is_skb_clone,
        Event.is_netlink_broadcast, Event.is_netif_rx, ulong_succ, List.count_cons]
    · simp [x25tap_rx_skb, x25tap_rx_skb_deliver, hnz, huid, hs, rx_len_eq, Event.is_skb_clone,
        List.count_cons]

/-! ## Module load and unload -/

/-- The kernel calls of a probe that succeeds. -/
theorem probe_ok (e : ProbeEnv) (u : Nat) (m : Module)
    (h1 : e.alloc_ok = true) (h2 : e.register_ret = 0) :
    (x25tap_probe e u m).ret = 0 ∧
    (x25tap_probe e u m).module.max_taps = m.max_taps ∧
    (x25tap_probe e u m).module.tap_map = tap_map_set m.tap_map u (some (x25tap_probe_dev e u)) ∧
    (x25tap_probe e u m).events =
      [Event.alloc_etherdev true, Event.netdev_boot_setup_check (ifname.x25tap u),
       Event.register_netdev (ifname.x25tap u) 0,
       Event.tap_map_store u (some (ifname.x25tap u))] := by
  by_cases hm : (x25tap_probe_dev e u).mem_start &&& 0xf ≠ 0 <;>
    simp [x25tap_probe, h1, h2, hm] <;> rfl

/-- A probe that fails: it returns its error, stores nothing into `tap_map`,
and neither unregisters nor frees any device but the one it allocated. -/
theorem probe_fail (e : ProbeEnv) (u : Nat) (m : Module)
    (h : e.alloc_ok = false ∨ e.register_ret ≠ 0) :
    (x25tap_probe e u m).ret ≠ 0 ∧
    (x25tap_probe e u m).ret = (if e.alloc_ok then e.register_ret else -ENOMEM) ∧
    (x25tap_probe e u m).module.max_taps = m.max_taps ∧
    (x25tap_probe e u m).module.tap_map = m.tap_map ∧
    (x25tap_probe e u m).events =
      (if e.alloc_ok then
        [Event.alloc_etherdev true, Event.netdev_boot_setup_check (ifname.x25tap u),
         Event.register_netdev (ifname.x25tap u) e.register_ret,
         Event.free_netdev (some (ifname.x25tap u))]
       else [Event.alloc_etherdev false]) := by
  cases ha : e.alloc_ok
  · simp [x25tap_probe, ha, ENOMEM]
  · have h2 : e.register_ret ≠ 0 := by
      rcases h with h | h
      · rw [ha] at h; cases h
      · exact h
    by_cases hm : (x25tap_probe_dev e u).mem_start &&& 0xf ≠ 0 <;>
      simp [x25tap_probe, ha, h2, hm] <;> rfl

/-- The load loop when every remaining probe succeeds. -/
theorem init_loop_ok (env : Nat → ProbeEnv) :
    ∀ (todo i : Nat) (m : Module),
      (∀ u, i ≤ u → u < i + todo → (env u).alloc_ok = true ∧ (env u).register_ret = 0) →
      (x25tap_init_loop env todo i m).ret = 0 ∧
      (x25tap_init_loop env todo i m).module.max_taps = m.max_taps ∧
      (∀ u, (x25tap_init_loop env todo i m).module.tap_map u =
        if i ≤ u ∧ u < i + todo then some (x25tap_probe_dev (env u) u) else m.tap_map u) ∧
      (x25tap_init_loop env todo i m).events =
        (List.range' i todo).flatMap (fun u =>
          [Event.alloc_etherdev true, Event.netdev_boot_setup_check (ifname.x25tap u),
           Event.register_netdev (ifname.x25tap u) 0,
           Event.tap_map_store u (some (ifname.x25tap u))]) := by
  intro todo
  induction todo with
  | zero =>
    intro i m _
    refine ⟨rfl, rfl, ?_, rfl⟩
    intro u
    have : ¬ (i ≤ u ∧ u < i + 0) := by omega
    rw [if_neg this]; rfl
  | succ t ih =>
    intro i m hok
    obtain ⟨p1, p2, p3, p4⟩ := probe_ok (env i) i m (hok i (le_refl _) (by omega)).1
      (hok i (le_refl _) (by omega)).2
    obtain ⟨r1, r2, r3, r4⟩ := ih (i + 1) (x25tap_probe (env i) i m).module
      (fun u h1 h2 => hok u (by omega) (by omega))
    have hret : ¬ (x25tap_probe (env i) i m).ret ≠ 0 := by rw [p1]; simp
    refine ⟨?_, ?_, ?_, ?_⟩
    · simp only [x25tap_init_loop, hret, if_false]; exact r1
    · simp only [x25tap_init_loop, hret, if_false]; rw [r2, p2]
    · intro u
      simp only [x25tap_init_loop, hret, if_false]
      rw [r3 u, p3]
      by_cases hu : u = i
      · subst hu
        have c1 : ¬ (u + 1 ≤ u ∧ u < u + 1 + t) := by omega
        have c2 : u ≤ u ∧ u < u + (t + 1) := by omega
        simp [c1, c2, tap_map_set]
      · by_cases hr : i + 1 ≤ u ∧ u < i + 1 + t
        · have c2 : i ≤ u ∧ u < i + (t + 1) := by omega
          simp [hr, c2]
        · have c2 : ¬ (i ≤ u ∧ u < i + (t + 1)) := by omega
          simp [hr, c2, tap_map_set, hu]
    · simp only [x25tap_init_loop, hret, if_false]
      rw [r4, p4, List.range'_succ, List.flatMap_cons]

/-- The unload loop over slots that all hold a device. -/
theorem cleanup_loop_full (d : Nat → net_device) :
    ∀ (todo i : Nat) (m : Module),
      (∀ u, i ≤ u → u < i + todo → m.tap_map u = some (d u)) →
      (∀ u, (x25tap_cleanup_loop todo i m).1.tap_map u =
        if i ≤ u ∧ u < i + todo then none else m.tap_map u) ∧
      (x25tap_cleanup_loop todo i m).2 =
        (List.range' i todo).flatMap (fun u =>
          [Event.tap_map_store u none, Event.unregister_netdev (some (d u).name),
           Event.free_netdev (some (d u).name)]) := by
  intro todo
  induction todo with
  | zero =>
    intro i m _
    refine ⟨?_, rfl⟩
    intro u
    have : ¬ (i ≤ u ∧ u < i + 0) := by omega
    rw [if_neg this]; rfl
  | succ t ih =>
    intro i m hfull
    have hi : m.tap_map i = some (d i) := hfull i (le_refl _) (by omega)
    obtain ⟨r1, r2⟩ := ih (i + 1) { m with tap_map := tap_map_set m.tap_map i none }
      (fun u h1 h2 => by
        have : u ≠ i := by omega
        simp only [tap_map_set, this, if_false]
        exact hfull u (by omega) (by omega))
    refine ⟨?_, ?_⟩
    · intro u
      simp only [x25tap_cleanup_loop, hi]
      rw [r1 u]
      by_cases hu : u = i
      · subst hu
        have c1 : ¬ (u + 1 ≤ u ∧ u < u + 1 + t) := by omega
        have c2 : u ≤ u ∧ u < u + (t + 1) := by omega
        simp [c1, c2, tap_map_set]
      · by_cases hr : i + 1 ≤ u ∧ u < i + 1 + t
        · have c2 : i ≤ u ∧ u < i + (t + 1) := by omega
          simp [hr, c2]
        · have c2 : ¬ (i ≤ u ∧ u < i + (t + 1)) := by omega
          simp [hr, c2, tap_map_set, hu]
    · simp only [x25tap_cleanup_loop, hi]
      rw [r2, List.range'_succ, List.flatMap_cons]

/-- How often one unit is unregistered and freed by the calls the unload
loop makes over the slots `i, ..., i + todo - 1`. -/
theorem cleanup_events_count (u : Nat) :
    ∀ (todo i : Nat),
      ((List.range' i todo).flatMap (fun v =>
          [Event.tap_map_store v none, Event.unregister_netdev (some (ifname.x25tap v)),
           Event.free_netdev (some (ifname.x25tap v))])).count
        (Event.unregister_netdev (some (ifname.x25tap u)))
        = (if i ≤ u ∧ u < i + todo then 1 else 0) ∧
      ((List.range' i todo).flatMap (fun v =>
          [Event.tap_map_store v none, Event.unregister_netdev (some (ifname.x25tap v)),
           Event.free_netdev (some (ifname.x25tap v))])).count
        (Event.free_netdev (some (ifname.x25tap u)))
        = (if i ≤ u ∧ u < i + todo then 1 else 0) := by
  intro todo
  induction todo with
  | zero =>
    intro i
    have : ¬ (i ≤ u ∧ u < i + 0) := by omega
    refine ⟨?_, ?_⟩ <;> rw [if_neg this] <;> rfl
  | succ t ih =>
    intro i
    obtain ⟨h1, h2⟩ := ih (i + 1)
    rw [List.range'_succ, List.flatMap_cons, List.count_append, List.count_append, h1, h2]
    by_cases hu : i = u
    · subst hu
      have c1 : ¬ (i + 1 ≤ i ∧ i < i + 1 + t) := by omega
      have c2 : i ≤ i ∧ i < i + (t + 1) := by omega
      simp [c1, c2, List.count_cons]
    · by_cases hr : i + 1 ≤ u ∧ u < i + 1 + t
      · have c2 : i ≤ u ∧ u < i + (t + 1) := by omega
        simp [hr, c2, List.count_cons, hu]
      · have c2 : ¬ (i ≤ u ∧ u < i + (t + 1)) := by omega
        simp [hr, c2, List.count_cons, hu]

/-- C8: when `max_taps` is within the bound, `tap_map` is allocated and every
probe succeeds, `x25tap_init` returns 0, having only allocated, registered
and stored one device per unit, and every unit `u` below `max_taps` resolves
through `tap_map[u]` to the device probed for it, named `x25tap<u>` and
addressed `u + 17`; `x25tap_cleanup` then leaves every slot empty, and
the calls it makes are, for `u = 0, 1, ...` in turn, the store of NULL into
slot `u`, then `unregister_netdev`, then `free_netdev` of that device, so
that each device is unregistered once and freed once, after its slot was
cleared. -/
theorem registry_after_load_and_unload (MAX_LINKS : Int) (mem : Nat → Option net_device)
    (env : Nat → ProbeEnv) (m : Module)
    (hbound : m.max_taps ≤ MAX_LINKS - 17)
    (hok : ∀ u : Nat, (u : Int) < m.max_taps →
      (env u).alloc_ok = true ∧ (env u).register_ret = 0) :
    (x25tap_init MAX_LINKS (some mem) env m).ret = 0 ∧
    (x25tap_init MAX_LINKS (some mem) env m).events =
      Event.kmalloc_tap_map m.max_taps true ::
        (List.range m.max_taps.toNat).flatMap (fun u =>
          [Event.alloc_etherdev true, Event.netdev_boot_setup_check (ifname.x25tap u),
           Event.register_netdev (ifname.x25tap u) 0,
           Event.tap_map_store u (some (ifname.x25tap u))]) ∧
    (∀ u : Nat, (u : Int) < m.max_taps →
      ∃ d : net_device,
        (x25tap_init MAX_LINKS (some mem) env m).module.tap_map u = some d ∧
        d = x25tap_probe_dev (env u) u ∧
        d.name = ifname.x25tap u ∧ d.base_addr = u + 17) ∧
    (∀ u : Nat, (u : Int) < m.max_taps →
      (x25tap_cleanup (x25tap_init MAX_LINKS (some mem) env m).module).1.tap_map u = none) ∧
    (x25tap_cleanup (x25tap_init MAX_LINKS (some mem) env m).module).2 =
      (List.range m.max_taps.toNat).flatMap (fun u =>
        [Event.tap_map_store u none, Event.unregister_netdev (some (ifname.x25tap u)),
         Event.free_netdev (some (ifname.x25tap u))])
      ++ [Event.kfree_tap_map] ∧
    (∀ u : Nat, (u : Int) < m.max_taps →
      (x25tap_cleanup (x25tap_init MAX_LINKS (some mem) env m).module).2.count
          (Event.unregister_netdev (some (ifname.x25tap u))) = 1 ∧
      (x25tap_cleanup (x25tap_init MAX_LINKS (some mem) env m).module).2.count
          (Event.free_netdev (some (ifname.x25tap u))) = 1) := by
  have hb : ¬ (m.max_taps > MAX_LINKS - 17) := by omega
  obtain ⟨l1, l2, l3, l4⟩ := init_loop_ok env m.max_taps.toNat 0 { m with tap_map := mem }
    (fun u _ h2 => hok u (by omega))
  have hinit : (x25tap_init MAX_LINKS (some mem) env m).events =
      Event.kmalloc_tap_map m.max_taps true ::
        (List.range m.max_taps.toNat).flatMap (fun u =>
          [Event.alloc_etherdev true, Event.netdev_boot_setup_check (ifname.x25tap u),
           Event.register_netdev (ifname.x25tap u) 0,
           Event.tap_map_store u (some (ifname.x25tap u))]) := by
    simp only [x25tap_init, hb, if_false, l1, l4, List.range_eq_range']
    simp
  have hmod : (x25tap_init MAX_LINKS (some mem) env m).module
      = (x25tap_init_loop env m.max_taps.toNat 0 { m with tap_map := mem }).module := by
    simp only [x25tap_init, hb, if_false]
  have hret : (x25tap_init MAX_LINKS (some mem) env m).ret = 0 := by
    simp only [x25tap_init, hb, if_false]; exact l1
  have hmt : (x25tap_init MAX_LINKS (some mem) env m).module.max_taps = m.max_taps := by
    rw [hmod, l2]
  have hslot : ∀ u : Nat, (u : Int) < m.max_taps →
      (x25tap_init MAX_LINKS (some mem) env m).module.tap_map u
        = some (x25tap_probe_dev (env u) u) := by
    intro u hu
    rw [hmod, l3 u]
    have : 0 ≤ u ∧ u < 0 + m.max_taps.toNat := by omega
    rw [if_pos this]
  obtain ⟨c1, c2⟩ := cleanup_loop_full (fun u => x25tap_probe_dev (env u) u) m.max_taps.toNat 0
    (x25tap_init MAX_LINKS (some mem) env m).module
    (fun u _ h2 => hslot u (by omega))
  have hev : (x25tap_cleanup (x25tap_init MAX_LINKS (some mem) env m).module).2 =
      (List.range m.max_taps.toNat).flatMap (fun u =>
        [Event.tap_map_store u none, Event.unregister_netdev (some (ifname.x25tap u)),
         Event.free_netdev (some (ifname.x25tap u))])
      ++ [Event.kfree_tap_map] := by
    simp only [x25tap_cleanup, hmt]
    rw [c2, List.range_eq_range']
    rfl
  refine ⟨hret, hinit, ?_, ?_, hev, ?_⟩
  · intro u hu
    exact ⟨_, hslot u hu, rfl, rfl, rfl⟩
  · intro u hu
    simp only [x25tap_cleanup, hmt]
    rw [c1 u]
    have : 0 ≤ u ∧ u < 0 + m.max_taps.toNat := by omega
    rw [if_pos this]
  · intro u hu
    rw [hev, List.range_eq_range', List.count_append, List.count_append]
    obtain ⟨k1, k2⟩ := cleanup_events_count u m.max_taps.toNat 0
    have : 0 ≤ u ∧ u < 0 + m.max_taps.toNat := by omega
    rw [k1, k2, if_pos this]
    simp [List.count_cons]

/-- The calls of the rollback loop entered with `i = j`, when the slots
`1, ..., j - 1` hold the devices `d 1, ..., d (j - 1)`: those devices are
unregistered and freed, from `j - 1` down to 1. -/
theorem init_rollback_events (d : Nat → net_device) (M : Module) :
    ∀ j : Nat, (∀ u, 0 < u → u < j → M.tap_map u = some (d u)) →
      x25tap_init_rollback M j =
        (List.range' 1 (j - 1)).reverse.flatMap (fun u =>
          [Event.unregister_netdev (some (d u).name), Event.free_netdev (some (d u).name)]) := by
  intro j
  induction j with
  | zero => intro _; rfl
  | succ i ih =>
    intro h
    by_cases hi : i > 0
    · have hr : List.range' 1 (i + 1 - 1) = List.range' 1 (i - 1) ++ [i] := by
        have e : i + 1 - 1 = (i - 1) + 1 := by omega
        rw [e, List.range'_concat]
        have e2 : 1 + 1 * (i - 1) = i := by omega
        rw [e2]
      rw [hr, List.reverse_append, List.reverse_singleton, List.singleton_append,
        List.flatMap_cons, ← ih (fun u h1 h2 => h u h1 (by omega))]
      simp only [x25tap_init_rollback, hi, if_true, h i hi (by omega), Option.map_some']
    · have hz : i = 0 := by omega
      subst hz
      rfl

/-- The load loop when the probes of the units `i, ..., i + k - 1` succeed
and that of unit `i + k` fails. -/
theorem init_loop_fail (env : Nat → ProbeEnv) :
    ∀ (k todo i : Nat) (m : Module), k < todo →
      (∀ u, i ≤ u → u < i + k → (env u).alloc_ok = true ∧ (env u).register_ret = 0) →
      ((env (i + k)).alloc_ok = false ∨ (env (i + k)).register_ret ≠ 0) →
      (x25tap_init_loop env todo i m).ret
        = (if (env (i + k)).alloc_ok then (env (i + k)).register_ret else -ENOMEM) ∧
      (x25tap_init_loop env todo i m).ret ≠ 0 ∧
      (∀ u, (x25tap_init_loop env todo i m).module.tap_map u =
        if i ≤ u ∧ u < i + k then some (x25tap_probe_dev (env u) u) else m.tap_map u) ∧
      (x25tap_init_loop env todo i m).events =
        (List.range' i k).flatMap (fun u =>
          [Event.alloc_etherdev true, Event.netdev_boot_setup_check (ifname.x25tap u),
           Event.register_netdev (ifname.x25tap u) 0,
           Event.tap_map_store u (some (ifname.x25tap u))])
        ++ (if (env (i + k)).alloc_ok then
              [Event.alloc_etherdev true, Event.netdev_boot_setup_check (ifname.x25tap (i + k)),
               Event.register_netdev (ifname.x25tap (i + k)) (env (i + k)).register_ret,
               Event.free_netdev (some (ifname.x25tap (i + k)))]
            else [Event.alloc_etherdev false])
        ++ x25tap_init_rollback (x25tap_init_loop env todo i m).module (i + k) := by
  intro k
  induction k with
  | zero =>
    intro todo i m hlt _ hfail
    obtain ⟨t, rfl⟩ : ∃ t, todo = t + 1 := ⟨todo - 1, by omega⟩
    obtain ⟨f1, f2, _, f4, f5⟩ := probe_fail (env i) i m hfail
    refine ⟨?_, ?_, ?_, ?_⟩
    · simp only [x25tap_init_loop, f1, if_true, ne_eq, not_false_eq_true]; exact f2
    · simp only [x25tap_init_loop, f1, if_true, ne_eq, not_false_eq_true]
    · intro u
      have : ¬ (i ≤ u ∧ u < i + 0) := by omega
      rw [if_neg this]
      simp only [x25tap_init_loop, f1, if_true, ne_eq, not_false_eq_true]
      rw [f4]
    · simp only [x25tap_init_loop, f1, if_true, ne_eq, not_false_eq_true]
      rw [f5]
      simp
  | succ k ih =>
    intro todo i m hlt hok hfail
    obtain ⟨t, rfl⟩ : ∃ t, todo = t + 1 := ⟨todo - 1, by omega⟩
    obtain ⟨p1, _, p3, p4⟩ := probe_ok (env i) i m (hok i (le_refl _) (by omega)).1
      (hok i (le_refl _) (by omega)).2
    have hidx : i + 1 + k = i + (k + 1) := by omega
    obtain ⟨r1, r2, r3, r4⟩ := ih t (i + 1) (x25tap_probe (env i) i m).module (by omega)
      (fun u h1 h2 => hok u (by omega) (by omega)) (by rw [hidx]; exact hfail)
    rw [hidx] at r1 r4
    have hret : ¬ (x25tap_probe (env i) i m).ret ≠ 0 := by rw [p1]; simp
    refine ⟨?_, ?_, ?_, ?_⟩
    · simp only [x25tap_init_loop, hret, if_false]; exact r1
    · simp only [x25tap_init_loop, hret, if_false]; exact r2
    · intro u
      simp only [x25tap_init_loop, hret, if_false]
      rw [r3 u, p3]
      by_cases hu : u = i
      · subst hu
        have c1 : ¬ (u + 1 ≤ u ∧ u < u + 1 + k) := by omega
        have c2 : u ≤ u ∧ u < u + (k + 1) := by omega
        simp [c1, c2, tap_map_set]
      · by_cases hr : i + 1 ≤ u ∧ u < i + 1 + k
        · have c2 : i ≤ u ∧ u < i + (k + 1) := by omega
          simp [hr, c2]
        · have c2 : ¬ (i ≤ u ∧ u < i + (k + 1)) := by omega
          simp [hr, c2, tap_map_set, hu]
    · simp only [x25tap_init_loop, hret, if_false]
      rw [r4, p4, List.range'_succ, List.flatMap_cons]
      simp only [List.append_assoc]

/-- What `x25tap_init` does when the probes of the units `0, ..., k - 1`
succeed and that of unit `k` (below `max_taps`) fails: it returns the error
of that probe, and its rollback unregisters and frees the units
`k - 1, ..., 1`.  For `0 < k` the device of unit 0 is neither unregistered
nor freed. -/
theorem init_partial_failure (MAX_LINKS : Int) (mem : Nat → Option net_device)
    (env : Nat → ProbeEnv) (m : Module) (k : Nat)
    (hbound : m.max_taps ≤ MAX_LINKS - 17)
    (hk : (k : Int) < m.max_taps)
    (hok : ∀ u, u < k → (env u).alloc_ok = true ∧ (env u).register_ret = 0)
    (hfail : (env k).alloc_ok = false ∨ (env k).register_ret ≠ 0) :
    (x25tap_init MAX_LINKS (some mem) env m).ret
      = (if (env k).alloc_ok then (env k).register_ret else -ENOMEM) ∧
    (x25tap_init MAX_LINKS (some mem) env m).ret ≠ 0 ∧
    (x25tap_init MAX_LINKS (some mem) env m).events =
      [Event.kmalloc_tap_map m.max_taps true]
      ++ (List.range' 0 k).flatMap (fun u =>
          [Event.alloc_etherdev true, Event.netdev_boot_setup_check (ifname.x25tap u),
           Event.register_netdev (ifname.x25tap u) 0,
           Event.tap_map_store u (some (ifname.x25tap u))])
      ++ (if (env k).alloc_ok then
            [Event.alloc_etherdev true, Event.netdev_boot_setup_check (ifname.x25tap k),
             Event.register_netdev (ifname.x25tap k) (env k).register_ret,
             Event.free_netdev (some (ifname.x25tap k))]
          else [Event.alloc_etherdev false])
      ++ (List.range' 1 (k - 1)).reverse.flatMap (fun u =>
          [Event.unregister_netdev (some (ifname.x25tap u)),
           Event.free_netdev (some (ifname.x25tap u))])
      ++ [Event.kfree_tap_map] ∧
    (0 < k →
      (x25tap_init MAX_LINKS (some mem) env m).module.tap_map 0
        = some (x25tap_probe_dev (env 0) 0) ∧
      Event.unregister_netdev (some (ifname.x25tap 0))
        ∉ (x25tap_init MAX_LINKS (some mem) env m).events ∧
      Event.free_netdev (some (ifname.x25tap 0))
        ∉ (x25tap_init MAX_LINKS (some mem) env m).events) := by
  have hb : ¬ (m.max_taps > MAX_LINKS - 17) := by omega
  have hz : 0 + k = k := by omega
  obtain ⟨l1, l2, l3, l4⟩ := init_loop_fail env k m.max_taps.toNat 0 { m with tap_map := mem }
    (by omega) (fun u _ h2 => hok u (by omega)) (by rw [hz]; exact hfail)
  rw [hz] at l1 l4
  have hroll := init_rollback_events (fun u => x25tap_probe_dev (env u) u)
    (x25tap_init_loop env m.max_taps.toNat 0 { m with tap_map := mem }).module k
    (fun u _ h2 => by
      rw [l3 u]
      have : 0 ≤ u ∧ u < 0 + k := by omega
      rw [if_pos this])
  have hev : (x25tap_init MAX_LINKS (some mem) env m).events =
      [Event.kmalloc_tap_map m.max_taps true]
      ++ (List.range' 0 k).flatMap (fun u =>
          [Event.alloc_etherdev true, Event.netdev_boot_setup_check (ifname.x25tap u),
           Event.register_netdev (ifname.x25tap u) 0,
           Event.tap_map_store u (some (ifname.x25tap u))])
      ++ (if (env k).alloc_ok then
            [Event.alloc_etherdev true, Event.netdev_boot_setup_check (ifname.x25tap k),
             Event.register_netdev (ifname.x25tap k) (env k).register_ret,
             Event.free_netdev (some (ifname.x25tap k))]
          else [Event.alloc_etherdev false])
      ++ (List.range' 1 (k - 1)).reverse.flatMap (fun u =>
          [Event.unregister_netdev (some (ifname.x25tap u)),
           Event.free_netdev (some (ifname.x25tap u))])
      ++ [Event.kfree_tap_map] := by
    simp only [x25tap_init, hb, if_false, l2, if_true, ne_eq, not_false_eq_true]
    rw [l4, hroll]
    simp only [List.append_assoc]
    rfl
  refine ⟨?_, ?_, hev, ?_⟩
  · simp only [x25tap_init, hb, if_false]; exact l1
  · simp only [x25tap_init, hb, if_false]; exact l2
  · intro hk0
    refine ⟨?_, ?_, ?_⟩
    · simp only [x25tap_init, hb, if_false]
      rw [l3 0]
      have : 0 ≤ 0 ∧ 0 < 0 + k := by omega
      rw [if_pos this]
    · rw [hev]
      cases (env k).alloc_ok <;>
        simp [List.mem_flatMap, List.mem_range'_1]
    · rw [hev]
      cases (env k).alloc_ok <;>
        simp [List.mem_flatMap, List.mem_range'_1]
      omega

/-- C1 (the code at the failing input): with `max_taps = 3`, the probes of
units 0 and 1 succeeding and `register_netdev` of unit 2 returning -19,
`x25tap_init` returns -19 and frees `tap_map`, but its rollback loop
unregisters and frees unit 1 only: the device of unit 0 is still in slot 0
and is neither unregistered nor freed. -/
theorem init_rollback_leaves_unit0_registered :
    (x25tap_init 32 (some (fun _ => none)) (register_fails_at 2) three_taps).ret = -19 ∧
    (x25tap_init 32 (some (fun _ => none)) (register_fails_at 2) three_taps).events =
      [Event.kmalloc_tap_map 3 true,
       Event.alloc_etherdev true, Event.netdev_boot_setup_check (ifname.x25tap 0),
       Event.register_netdev (ifname.x25tap 0) 0,
       Event.tap_map_store 0 (some (ifname.x25tap 0)),
       Event.alloc_etherdev true, Event.netdev_boot_setup_check (ifname.x25tap 1),
       Event.register_netdev (ifname.x25tap 1) 0,
       Event.tap_map_store 1 (some (ifname.x25tap 1)),
       Event.alloc_etherdev true, Event.netdev_boot_setup_check (ifname.x25tap 2),
       Event.register_netdev (ifname.x25tap 2) (-19),
       Event.free_netdev (some (ifname.x25tap 2)),
       Event.unregister_netdev (some (ifname.x25tap 1)),
       Event.free_netdev (some (ifname.x25tap 1)),
       Event.kfree_tap_map] ∧
    Event.unregister_netdev (some (ifname.x25tap 0))
      ∉ (x25tap_init 32 (some (fun _ => none)) (register_fails_at 2) three_taps).events ∧
    Event.free_netdev (some (ifname.x25tap 0))
      ∉ (x25tap_init 32 (some (fun _ => none)) (register_fails_at 2) three_taps).events ∧
    ((x25tap_init 32 (some (fun _ => none)) (register_fails_at 2) three_taps).module.tap_map 0).map
      net_device.name = some (ifname.x25tap 0) := by
  refine ⟨by decide, by decide, by decide, by decide, by decide⟩

/-! ## The theorems at concrete inputs -/

/-- C5 at the frame `[0x01, 0xAA]`: broadcast unchanged, no statistic
changes, return value 0. -/
theorem start_xmit_recognised_code_witness :
    connect_frame.data = 0x01 :: [0xAA] ∧ skb_shared connect_frame = false ∧
    (x25tap_start_xmit Arch.lp64 5 true connect_frame tap0).events.filter
        Event.is_netlink_broadcast
      = [Event.netlink_broadcast tap0.priv.nl
          (if skb_shared connect_frame then skb_clone connect_frame else connect_frame) 0 1] ∧
    (x25tap_start_xmit Arch.lp64 5 true connect_frame tap0).ret = 0 ∧
    (x25tap_start_xmit Arch.lp64 5 true connect_frame tap0).dev = tap0 :=
  ⟨rfl, rfl,
   (start_xmit_recognised_code Arch.lp64 5 true connect_frame tap0 0x01 [0xAA] rfl
      (Or.inr (Or.inl rfl)) (Or.inl rfl)).2.1,
   (start_xmit_recognised_code Arch.lp64 5 true connect_frame tap0 0x01 [0xAA] rfl
      (Or.inr (Or.inl rfl)) (Or.inl rfl)).2.2.1,
   (start_xmit_recognised_code Arch.lp64 5 true connect_frame tap0 0x01 [0xAA] rfl
      (Or.inr (Or.inl rfl)) (Or.inl rfl)).2.2.2.2.2 (by decide)⟩

/-- C6 at the frame `[0x07, 0x55]`: dropped with -1 and not broadcast. -/
theorem start_xmit_unknown_code_witness :
    unknown_frame.data = 0x07 :: [0x55] ∧ skb_shared unknown_frame = false ∧
    (x25tap_start_xmit Arch.ilp32 5 false unknown_frame tap0).ret = -1 ∧
    (x25tap_start_xmit Arch.ilp32 5 false unknown_frame tap0).dev = tap0.set_stats
      { tap0.priv.stats with
        tx_dropped := (tap0.priv.stats.tx_dropped + 1) % 2 ^ BITS_PER_LONG Arch.ilp32 } ∧
    (x25tap_start_xmit Arch.ilp32 5 false unknown_frame tap0).events.filter
      Event.is_netlink_broadcast = [] :=
  ⟨rfl, rfl,
   (start_xmit_unknown_code Arch.ilp32 5 false unknown_frame tap0 0x07 [0x55] rfl
      (by decide) (Or.inl rfl)).1,
   (start_xmit_unknown_code Arch.ilp32 5 false unknown_frame tap0 0x07 [0x55] rfl
      (by decide) (Or.inl rfl)).2.1,
   (start_xmit_unknown_code Arch.ilp32 5 false unknown_frame tap0 0x07 [0x55] rfl
      (by decide) (Or.inl rfl)).2.2.2.2.2⟩

/-- C4 at a shared data frame of length 3 from uid 0 whose clone fails, on
the transmit side and on the receive side. -/
theorem shared_buffer_clone_and_release_witness :
    skb_shared shared_data_frame = true ∧
    (x25tap_start_xmit Arch.lp64 5 false shared_data_frame tap0).events.filter Event.is_skb_clone
      = [Event.skb_clone shared_data_frame false] ∧
    (x25tap_start_xmit Arch.lp64 5 false shared_data_frame tap0).events.count
      (Event.kfree_skb shared_data_frame) = 1 ∧
    (x25tap_start_xmit Arch.lp64 5 false shared_data_frame tap0).dev = tap0.set_stats
      { tap0.priv.stats with
        tx_dropped := (tap0.priv.stats.tx_dropped + 1) % 2 ^ BITS_PER_LONG Arch.lp64 } ∧
    (x25tap_rx_skb Arch.lp64 false 77 shared_data_frame tap0).events.count
      (Event.kfree_skb shared_data_frame) = 1 ∧
    (x25tap_rx_skb Arch.lp64 false 77 shared_data_frame tap0).dev = tap0.set_stats
      { tap0.priv.stats with
        rx_dropped := (tap0.priv.stats.rx_dropped + 1) % 2 ^ BITS_PER_LONG Arch.lp64 } :=
  ⟨rfl,
   (shared_buffer_clone_and_release Arch.lp64 5 false 77 shared_data_frame tap0 rfl).1.1,
   (shared_buffer_clone_and_release Arch.lp64 5 false 77 shared_data_frame tap0 rfl).1.2.1,
   ((shared_buffer_clone_and_release Arch.lp64 5 false 77 shared_data_frame tap0 rfl).1.2.2
      rfl).1,
   ((shared_buffer_clone_and_release Arch.lp64 5 false 77 shared_data_frame tap0 rfl).2
      (by decide) rfl).2.1,
   (((shared_buffer_clone_and_release Arch.lp64 5 false 77 shared_data_frame tap0 rfl).2
      (by decide) rfl).2.2 rfl).1⟩

/-- C9 at a data message from uid 0: it is returned with its length 2 and
counted as one packet of 2 bytes. -/
theorem rx_skb_accepted_witness :
    root_message.data = 0x00 :: [0x10] ∧ root_message.creds.uid = 0 ∧
    skb_shared root_message = false ∧
    (x25tap_rx_skb Arch.lp64 true 77 root_message tap0).ret = (root_message.len : Int) ∧
    (x25tap_rx_skb Arch.lp64 true 77 root_message tap0).dev.priv.stats =
      { tap0.priv.stats with
        rx_packets := (tap0.priv.stats.rx_packets + 1) % 2 ^ BITS_PER_LONG Arch.lp64
        rx_bytes := (tap0.priv.stats.rx_bytes + root_message.len) % 2 ^ BITS_PER_LONG Arch.lp64 } :=
  ⟨rfl, rfl, rfl,
   (rx_skb_accepted Arch.lp64 true 77 root_message tap0 0x00 [0x10] rfl rfl (Or.inl rfl)).2.1,
   (rx_skb_accepted Arch.lp64 true 77 root_message tap0 0x00 [0x10] rfl rfl (Or.inl rfl)).2.2.1
      rfl⟩

/-- C2 as stated fails: a message of length 0 from uid 1000 changes a
counter, `rx_errors` goes from 0 to 1. -/
theorem rx_skb_unauthorised_empty_counted :
    user_empty_message.creds.uid ≠ 0 ∧
    tap0.priv.stats.rx_errors = 0 ∧
    (x25tap_rx_skb Arch.lp64 true 77 user_empty_message tap0).dev.priv.stats.rx_errors = 1 ∧
    (x25tap_rx_skb Arch.lp64 true 77 user_empty_message tap0).dev.priv.stats ≠ tap0.priv.stats := by
  refine ⟨by decide, by decide, by decide, by decide⟩

/-- C2 (amended) at a message of length 2 from uid 1000. -/
theorem rx_skb_unauthorised_sender_witness :
    user_message.creds.uid ≠ 0 ∧
    (x25tap_rx_skb Arch.lp64 true 77 user_message tap0).events.filter Event.is_netif_rx = [] ∧
    (x25tap_rx_skb Arch.lp64 true 77 user_message tap0).dev = tap0 ∧
    (x25tap_rx_skb Arch.lp64 true 77 user_message tap0).ret = -EPERM :=
  ⟨by decide,
   (rx_skb_unauthorised_sender Arch.lp64 true 77 user_message tap0 (by decide)).1,
   ((rx_skb_unauthorised_sender Arch.lp64 true 77 user_message tap0 (by decide)).2.1
      (by decide)).1,
   ((rx_skb_unauthorised_sender Arch.lp64 true 77 user_message tap0 (by decide)).2.1
      (by decide)).2.1⟩

/-- C7 at a socket of netlink unit 5: the unit wraps to `2 ^ 32 - 12`, and
both queued messages are released. -/
theorem rx_unresolvable_unit_witness :
    u32 one_of_three.max_taps ≤ u32 ((low_sock.sk_protocol : Int) - 17) ∧
    u32 ((low_sock.sk_protocol : Int) - 17) = 4294967284 ∧
    (x25tap_rx Arch.lp64 (fun _ => true) (fun _ => 77) one_of_three low_sock 2).sk.sk_receive_queue
      = [] ∧
    (x25tap_rx Arch.lp64 (fun _ => true) (fun _ => 77) one_of_three low_sock 2).events
      = Event.printk KernLevel.KERN_CRIT (Msg.bad_unit (u32 ((low_sock.sk_protocol : Int) - 17)))
        :: low_sock.sk_receive_queue.map Event.kfree_skb ∧
    (x25tap_rx Arch.lp64 (fun _ => true) (fun _ => 77) one_of_three low_sock 2).module
      = one_of_three :=
  ⟨by decide, by decide,
   (rx_unresolvable_unit Arch.lp64 (fun _ => true) (fun _ => 77) one_of_three low_sock 2
      (Or.inl (by decide))).1,
   (rx_unresolvable_unit Arch.lp64 (fun _ => true) (fun _ => 77) one_of_three low_sock 2
      (Or.inl (by decide))).2.1,
   (rx_unresolvable_unit Arch.lp64 (fun _ => true) (fun _ => 77) one_of_three low_sock 2
      (Or.inl (by decide))).2.2.2⟩

/-- C8 at `max_taps = 3`: load succeeds, unit 2 resolves to its device, and
unload clears slot 2 and unregisters that device once. -/
theorem registry_after_load_and_unload_witness :
    three_taps.max_taps ≤ 32 - 17 ∧
    (x25tap_init 32 (some (fun _ => none)) all_probes_ok three_taps).ret = 0 ∧
    (∃ d : net_device,
      (x25tap_init 32 (some (fun _ => none)) all_probes_ok three_taps).module.tap_map 2 = some d ∧
      d = x25tap_probe_dev (all_probes_ok 2) 2 ∧
      d.name = ifname.x25tap 2 ∧ d.base_addr = 2 + 17) ∧
    (x25tap_cleanup
      (x25tap_init 32 (some (fun _ => none)) all_probes_ok three_taps).module).1.tap_map 2 = none ∧
    (x25tap_cleanup (x25tap_init 32 (some (fun _ => none)) all_probes_ok three_taps).module).2 =
      (List.range three_taps.max_taps.toNat).flatMap (fun u =>
        [Event.tap_map_store u none, Event.unregister_netdev (some (ifname.x25tap u)),
         Event.free_netdev (some (ifname.x25tap u))])
      ++ [Event.kfree_tap_map] ∧
    (x25tap_cleanup (x25tap_init 32 (some (fun _ => none)) all_probes_ok three_taps).module).2.count
      (Event.unregister_netdev (some (ifname.x25tap 2))) = 1 :=
  ⟨by decide,
   (registry_after_load_and_unload 32 (fun _ => none) all_probes_ok three_taps (by decide)
      (fun _ _ => ⟨rfl, rfl⟩)).1,
   (registry_after_load_and_unload 32 (fun _ => none) all_probes_ok three_taps (by decide)
      (fun _ _ => ⟨rfl, rfl⟩)).2.2.1 2 (by decide),
   (registry_after_load_and_unload 32 (fun _ => none) all_probes_ok three_taps (by decide)
      (fun _ _ => ⟨rfl, rfl⟩)).2.2.2.1 2 (by decide),
   (registry_after_load_and_unload 32 (fun _ => none) all_probes_ok three_taps (by decide)
      (fun _ _ => ⟨rfl, rfl⟩)).2.2.2.2.1,
   ((registry_after_load_and_unload 32 (fun _ => none) all_probes_ok three_taps (by decide)
      (fun _ _ => ⟨rfl, rfl⟩)).2.2.2.2.2 2 (by decide)).1⟩

end X25tap
